import Mathlib

/-!
Verification development for the scalable-chat message pipeline.

The embedding covers the two source services of the server:

* `apps/server/src/services/socket.ts` (the full variant with Redis):
  the `event:message` socket handler (Ingress Relay) and the Redis
  subscription handler (Local Broadcaster).
* `apps/server/src/services/kafka.ts`: `createProducer`, `produceMessage`,
  `createConsumer`, and the `eachMessage` callback of
  `startMessageConsumer` (Persistence Consumer), together with a small
  operational model of the kafkajs consumer run loop it is installed into.

JavaScript's `JSON.stringify` / `JSON.parse` are modelled first, since the
handlers serialize and deserialize payloads at the Redis boundary.
-/

/-- A JSON value as produced by JavaScript's `JSON.parse`.  Numbers keep
their source lexeme (the handlers never inspect numeric values, so no
floating-point interpretation is needed). -/
inductive Json where
  | null : Json
  | bool (b : Bool) : Json
  | num (lexeme : String) : Json
  | str (s : String) : Json
  | arr (items : List Json) : Json
  | obj (members : List (String × Json)) : Json
deriving Repr

/-- Lower-case hexadecimal digit for `n < 16`, as used by `JSON.stringify`
when emitting `\u00XX` escapes. -/
def hexDigitChar (n : Nat) : Char :=
  if n < 10 then Char.ofNat (48 + n) else Char.ofNat (87 + n)

/-- Value of a hexadecimal digit accepted by `JSON.parse` in a `\uXXXX`
escape (both cases accepted). -/
def hexDigitVal (c : Char) : Option Nat :=
  if 48 ≤ c.toNat ∧ c.toNat ≤ 57 then some (c.toNat - 48)
  else if 97 ≤ c.toNat ∧ c.toNat ≤ 102 then some (c.toNat - 87)
  else if 65 ≤ c.toNat ∧ c.toNat ≤ 70 then some (c.toNat - 55)
  else none

/-- How `JSON.stringify` escapes one character inside a string literal:
`"` and `\` get a backslash, the five named control characters use their
short escapes, every other control character below U+0020 becomes
`\u00XX`, and everything else is emitted verbatim.  (Lean `Char` carries
unicode scalar values only, so the lone-surrogate case of JavaScript
strings does not arise.) -/
def escapeChar (c : Char) : List Char :=
  if c = '"' then ['\\', '"']
  else if c = '\\' then ['\\', '\\']
  else if c = '\x08' then ['\\', 'b']
  else if c = '\x0c' then ['\\', 'f']
  else if c = '\n' then ['\\', 'n']
  else if c = '\r' then ['\\', 'r']
  else if c = '\t' then ['\\', 't']
  else if c.toNat < 32 then
    ['\\', 'u', '0', '0', hexDigitChar (c.toNat / 16), hexDigitChar (c.toNat % 16)]
  else [c]

/-- `escapeChar` applied along a string's characters. -/
def escapeList : List Char → List Char
  | [] => []
  | c :: cs => escapeChar c ++ escapeList cs

/-- `JSON.stringify` of a string value: the escaped characters between
double quotes. -/
def quoteJsonString (s : String) : String :=
  String.mk ('"' :: (escapeList s.data ++ ['"']))

/-- `JSON.stringify({ message })` for `message = m`: JavaScript emits the
single-member object with no whitespace. -/
def stringifyMessageObj (m : String) : String :=
  "\x7b\"message\":" ++ quoteJsonString m ++ "\x7d"

/-- Code point of a `\uXXXX` escape, given its four hex digits. -/
def uEscapeVal (h1 h2 h3 h4 : Char) : Option Nat :=
  match hexDigitVal h1, hexDigitVal h2, hexDigitVal h3, hexDigitVal h4 with
  | some a, some b, some c, some d => some (4096 * a + 256 * b + 16 * c + d)
  | _, _, _, _ => none

/-- One escape sequence of a JSON string literal, after its leading
backslash: the escaped character and the remaining input.  Surrogate
pairs in `\u` escapes are combined; a lone surrogate is rejected
(JavaScript would produce a lone-surrogate string, which Lean's `Char`
cannot carry; no payload in this development contains one). -/
def parseEscape : List Char → Option (Char × List Char)
  | '"' :: rest => some ('"', rest)
  | '\\' :: rest => some ('\\', rest)
  | '/' :: rest => some ('/', rest)
  | 'b' :: rest => some ('\x08', rest)
  | 'f' :: rest => some ('\x0c', rest)
  | 'n' :: rest => some ('\n', rest)
  | 'r' :: rest => some ('\r', rest)
  | 't' :: rest => some ('\t', rest)
  | 'u' :: h1 :: h2 :: h3 :: h4 :: rest =>
    match uEscapeVal h1 h2 h3 h4 with
    | none => none
    | some n =>
      if 55296 ≤ n ∧ n < 56320 then
        match rest with
        | '\\' :: 'u' :: g1 :: g2 :: g3 :: g4 :: rest2 =>
          match uEscapeVal g1 g2 g3 g4 with
          | none => none
          | some m =>
            if 56320 ≤ m ∧ m < 57344 then
              some (Char.ofNat (65536 + (n - 55296) * 1024 + (m - 56320)), rest2)
            else none
        | _ => none
      else if 56320 ≤ n ∧ n < 57344 then none
      else some (Char.ofNat n, rest)
  | _ => none

/-- The body of a JSON string literal, after the opening quote: characters
up to the closing quote, honouring the escape sequences `JSON.parse`
accepts.  Raw control characters are a syntax error.  Each step consumes
at least one character, so fuel `length + 1` always suffices at the call
sites below. -/
def parseStringBody : Nat → List Char → Option (List Char × List Char)
  | 0, _ => none
  | fuel + 1, cs =>
    match cs with
    | [] => none
    | '"' :: rest => some ([], rest)
    | '\\' :: rest =>
      match parseEscape rest with
      | none => none
      | some (c, rest2) => (parseStringBody fuel rest2).map (fun p => (c :: p.1, p.2))
    | c :: rest =>
      if c.toNat < 32 then none
      else (parseStringBody fuel rest).map (fun p => (c :: p.1, p.2))

/-- JSON insignificant whitespace (space, tab, line feed, carriage
return), as skipped by `JSON.parse`. -/
def skipWs : List Char → List Char
  | [] => []
  | c :: rest =>
    if c = ' ' ∨ c = '\t' ∨ c = '\n' ∨ c = '\r' then skipWs rest else c :: rest

/-- Longest digit run at the front of the input. -/
def takeDigits : List Char → List Char × List Char
  | [] => ([], [])
  | c :: rest =>
    if c.isDigit then
      let p := takeDigits rest
      (c :: p.1, p.2)
    else ([], c :: rest)

/-- Integer part of a JSON number: `0`, or a nonzero digit followed by
digits (leading zeros are a syntax error). -/
def parseIntPart : List Char → Option (List Char × List Char)
  | [] => none
  | c :: rest =>
    if c = '0' then some (['0'], rest)
    else if c.isDigit then
      let p := takeDigits rest
      some (c :: p.1, p.2)
    else none

/-- Optional fraction part of a JSON number. -/
def parseFracPart (cs : List Char) : Option (List Char × List Char) :=
  match cs with
  | '.' :: rest =>
    match takeDigits rest with
    | ([], _) => none
    | (ds, r) => some ('.' :: ds, r)
  | _ => some ([], cs)

/-- Optional exponent part of a JSON number. -/
def parseExpPart (cs : List Char) : Option (List Char × List Char) :=
  match cs with
  | c :: rest =>
    if c = 'e' ∨ c = 'E' then
      match rest with
      | s :: rest2 =>
        if s = '+' ∨ s = '-' then
          match takeDigits rest2 with
          | ([], _) => none
          | (ds, r) => some (c :: s :: ds, r)
        else
          match takeDigits rest with
          | ([], _) => none
          | (ds, r) => some (c :: ds, r)
      | [] => none
    else some ([], cs)
  | [] => some ([], [])

/-- A JSON number lexeme (sign, integer part, optional fraction and
exponent), returned uninterpreted. -/
def parseNumberLexeme (cs : List Char) : Option (List Char × List Char) :=
  let signed := match cs with
    | '-' :: r => (['-'], r)
    | _ => (([] : List Char), cs)
  match parseIntPart signed.2 with
  | none => none
  | some (ip, r1) =>
    match parseFracPart r1 with
    | none => none
    | some (fp, r2) =>
      match parseExpPart r2 with
      | none => none
      | some (ep, r3) => some (signed.1 ++ ip ++ fp ++ ep, r3)

mutual

/-- One JSON value, by recursive descent with a fuel bound on the number
of grammar-rule applications; `JSON.parse`'s grammar. -/
def parseValue : Nat → List Char → Option (Json × List Char)
  | 0, _ => none
  | fuel + 1, cs =>
    match skipWs cs with
    | 'n' :: 'u' :: 'l' :: 'l' :: rest => some (.null, rest)
    | 't' :: 'r' :: 'u' :: 'e' :: rest => some (.bool true, rest)
    | 'f' :: 'a' :: 'l' :: 's' :: 'e' :: rest => some (.bool false, rest)
    | '"' :: rest =>
      (parseStringBody (rest.length + 1) rest).map (fun p => (.str (String.mk p.1), p.2))
    | '[' :: rest =>
      match skipWs rest with
      | ']' :: rest2 => some (.arr [], rest2)
      | rest2 => (parseItems fuel rest2).map (fun p => (.arr p.1, p.2))
    | '\x7b' :: rest =>
      match skipWs rest with
      | '\x7d' :: rest2 => some (.obj [], rest2)
      | rest2 => (parseMembers fuel rest2).map (fun p => (.obj p.1, p.2))
    | cs2 => (parseNumberLexeme cs2).map (fun p => (.num (String.mk p.1), p.2))

/-- Comma-separated array items up to the closing bracket. -/
def parseItems : Nat → List Char → Option (List Json × List Char)
  | 0, _ => none
  | fuel + 1, cs =>
    match parseValue fuel cs with
    | none => none
    | some (v, r) =>
      match skipWs r with
      | ',' :: r2 => (parseItems fuel r2).map (fun p => (v :: p.1, p.2))
      | ']' :: r2 => some ([v], r2)
      | _ => none

/-- Comma-separated object members up to the closing brace. -/
def parseMembers : Nat → List Char → Option (List (String × Json) × List Char)
  | 0, _ => none
  | fuel + 1, cs =>
    match skipWs cs with
    | '"' :: r =>
      match parseStringBody (r.length + 1) r with
      | none => none
      | some (k, r1) =>
        match skipWs r1 with
        | ':' :: r2 =>
          match parseValue fuel r2 with
          | none => none
          | some (v, r3) =>
            match skipWs r3 with
            | ',' :: r4 => (parseMembers fuel r4).map (fun p => ((String.mk k, v) :: p.1, p.2))
            | '\x7d' :: r4 => some ([(String.mk k, v)], r4)
            | _ => none
        | _ => none
    | _ => none

end

/-- `JSON.parse`: one value, with only whitespace allowed after it.  Every
grammar-rule application consumes at least one input character, so
`length + 2` fuel always suffices. -/
def jsonParse (s : String) : Option Json :=
  match parseValue (s.data.length + 2) s.data with
  | some (v, rest) => if skipWs rest = [] then some v else none
  | none => none

/-- Field lookup on a parsed JSON object (first member with the key). -/
def jsonField (j : Json) (k : String) : Option Json :=
  match j with
  | .obj members => members.lookup k
  | _ => none

/-! ## The socket service (`apps/server/src/services/socket.ts`)

The full variant of the service (the one with Redis wired in).  Its two
anonymous handlers are embedded as functions from their inputs to the
ordered list of effects they issue against their collaborators.  The
effect alphabet includes a Kafka-send constructor so that the *absence*
of a Durable Log append in a handler is expressible. -/

/-- An observable side effect issued by the socket service. -/
inductive SocketEffect where
  | consoleLog (text : String) : SocketEffect
  | redisPublish (channel : String) (payload : String) : SocketEffect
  | kafkaSend (topic : String) (key : String) (value : String) : SocketEffect
  | ioEmit (event : String) (payload : Json) : SocketEffect
deriving Repr

/-- Whether an effect is a Kafka producer send. -/
def SocketEffect.isKafkaSend : SocketEffect → Bool
  | .kafkaSend _ _ _ => true
  | _ => false

/-- Whether an effect is an `io.emit` broadcast. -/
def SocketEffect.isIoEmit : SocketEffect → Bool
  | .ioEmit _ _ => true
  | _ => false

/-- The `socket.on("event:message")` handler installed by
`SocketService.initListeners` (socket.ts): it logs the message and
publishes `JSON.stringify({ message })` to the Redis channel
`"MESSAGES"`.  These are the only statements in its body; in particular
it never calls `produceMessage` (no Kafka send is issued).
`console.log`'s two arguments are modelled as one joined line. -/
def eventMessageHandler (message : String) : List SocketEffect :=
  [ .consoleLog ("New Message Received: " ++ message)
  , .redisPublish "MESSAGES" (stringifyMessageObj message) ]

/-- Result of one invocation of the Redis subscription callback: the
effects it issued, in order, and the JavaScript exception it threw (the
callback is `async`, so a throw surfaces as a rejected promise). -/
structure HandlerResult where
  effects : List SocketEffect
  thrown : Option String
deriving Repr

/-- The `sub.on("message")` handler installed by
`SocketService.initListeners` (socket.ts): for channel `"MESSAGES"` it
logs the raw payload and emits `JSON.parse(message)` to every connected
socket.  `JSON.parse` is evaluated as the argument of `io.emit`, and the
handler has no try/catch: on a malformed payload the parse throws after
the log and before any emit. -/
def redisMessageHandler (channel : String) (payload : String) : HandlerResult :=
  if channel = "MESSAGES" then
    match jsonParse payload with
    | some v =>
      { effects := [.consoleLog ("New message from Redis: " ++ payload),
                    .ioEmit "message" v]
        thrown := none }
    | none =>
      { effects := [.consoleLog ("New message from Redis: " ++ payload)]
        thrown := some "SyntaxError" }
  else { effects := [], thrown := none }

/-- Per-client deliveries produced by a handler's effects: `io.emit`
broadcasts to every socket connected to this instance (socket.io's
server-wide emit), with no recipient filtering of any kind. -/
def deliveries (clients : List String) (effects : List SocketEffect) : List (String × Json) :=
  effects.flatMap fun e =>
    match e with
    | .ioEmit _ v => clients.map fun c => (c, v)
    | _ => []

/-! ## The Kafka service (`apps/server/src/services/kafka.ts`)

Module state: the file has two module-level `let` bindings, `producer`
and `consumer`, both initially `null`.  Kafka client objects are
modelled by numeric identities; connecting is recorded as an effect in
the state so that "no new client is created or connected" is
expressible. -/

/-- The module-level mutable state of `kafka.ts`. -/
structure KafkaModuleState where
  producer : Option Nat
  consumer : Option Nat
  nextClientId : Nat
  connectedClients : List Nat
  consumerGroupIds : List String
deriving Repr, DecidableEq

/-- State of the module when the process starts: both bindings `null`. -/
def initialKafkaModuleState : KafkaModuleState :=
  { producer := none, consumer := none, nextClientId := 0,
    connectedClients := [], consumerGroupIds := [] }

/-- `createProducer` (kafka.ts lines 21-28): returns the cached producer
if one exists; otherwise creates a producer, connects it, caches it and
returns it. -/
def createProducer (s : KafkaModuleState) : Nat × KafkaModuleState :=
  match s.producer with
  | some p => (p, s)
  | none =>
    (s.nextClientId,
     { s with producer := some s.nextClientId,
              nextClientId := s.nextClientId + 1,
              connectedClients := s.connectedClients ++ [s.nextClientId] })

/-- `createConsumer` (kafka.ts lines 39-46): returns the cached consumer
if one exists — without reading `groupId` at all; otherwise creates a
consumer for `groupId`, connects it, caches it and returns it. -/
def createConsumer (groupId : String) (s : KafkaModuleState) : Nat × KafkaModuleState :=
  match s.consumer with
  | some c => (c, s)
  | none =>
    (s.nextClientId,
     { s with consumer := some s.nextClientId,
              nextClientId := s.nextClientId + 1,
              connectedClients := s.connectedClients ++ [s.nextClientId],
              consumerGroupIds := s.consumerGroupIds ++ [groupId] })

/-- One record batch passed to `producer.send`. -/
structure SendArgs where
  topic : String
  key : String
  value : String
deriving Repr, DecidableEq

/-- `produceMessage` (kafka.ts lines 30-37): obtains the memoized
producer, awaits a send of one record to topic `"MESSAGES"` whose key is
`"message-" + Date.now()` (the argument `now` is the clock reading at the
call) and whose value is the serialized message, and returns `true`.
Result: returned value, module state after, and the send issued. -/
def produceMessage (now : Nat) (message : String) (s : KafkaModuleState) :
    Bool × KafkaModuleState × List SendArgs :=
  let p := createProducer s
  (true, p.2, [{ topic := "MESSAGES", key := "message-" ++ toString now, value := message }])

/-! ## The persistence consumer (`startMessageConsumer` in `kafka.ts`)

`startMessageConsumer` subscribes the memoized consumer to topic
`"MESSAGES"` with `fromBeginning: true` and installs an `eachMessage`
callback.  The callback is embedded as a pure function of the store
outcome and the message value; the kafkajs run loop around it is
modelled separately below. -/

/-- One element of a kafkajs `pause`/`resume` argument: a topic and an
optional partition list.  kafkajs treats a missing `partitions` field as
"every partition of the topic assigned to this consumer". -/
structure TopicPartitionSel where
  topic : String
  partitions : Option (List Nat)
deriving Repr, DecidableEq

/-- An observable event of one `eachMessage` invocation, in program
order. -/
inductive ConsumerEvent where
  | logged (text : String) : ConsumerEvent
  | dbInsert (text : String) : ConsumerEvent
  | pauseIssued (args : List TopicPartitionSel) : ConsumerEvent
  | resumeScheduled (delayMs : Nat) (args : List TopicPartitionSel) : ConsumerEvent
deriving Repr, DecidableEq

/-- Whether an event is a pause directive. -/
def ConsumerEvent.isPause : ConsumerEvent → Bool
  | .pauseIssued _ => true
  | _ => false

/-- Whether an event is a successful store write. -/
def ConsumerEvent.isDbInsert : ConsumerEvent → Bool
  | .dbInsert _ => true
  | _ => false

/-- `prismaClient.message.create({ data: { text } })`: the store is an
external collaborator, so its outcome for this call is an oracle input
(`true` = the row is written, `false` = the call throws). -/
def prismaCreateMessage (storeOk : Bool) (text : String) : Except String Unit :=
  if storeOk then .ok () else .error ("store write failed: " ++ text)

deriving instance DecidableEq for Except

/-- Outcome of one `eachMessage` invocation: its events and whether the
async callback resolved (`.ok`) or rejected (`.error`). -/
structure EachMessageOutcome where
  events : List ConsumerEvent
  result : Except String Unit
deriving Repr, DecidableEq

/-- The `eachMessage` callback of `startMessageConsumer` (kafka.ts lines
54-88).  It logs the delivery, and only when `message.value` is truthy
(kafkajs delivers `Buffer | null`; a Buffer is a JS object and hence
truthy even when empty, so the guard tests presence, not non-emptiness;
a Buffer value is modelled as its decoded string) attempts the store
write inside try/catch.  On a store error it logs, issues
`pause([{ topic: "MESSAGES" }])` — no partition list — and schedules a
resume of the same selection after 60000 ms.  The catch swallows the
error, so the callback always resolves. -/
def eachMessage (storeOk : Bool) (value : Option String) : EachMessageOutcome :=
  match value with
  | none => { events := [.logged "Kafka message received:"], result := .ok () }
  | some text =>
    match prismaCreateMessage storeOk text with
    | .ok _ =>
      { events := [.logged "Kafka message received:",
                   .dbInsert text,
                   .logged "Message saved to database:"]
        result := .ok () }
    | .error _ =>
      { events := [.logged "Kafka message received:",
                   .logged "Error saving message to database:",
                   .logged "Pausing consumer for 1 minute...",
                   .pauseIssued [{ topic := "MESSAGES", partitions := none }],
                   .resumeScheduled 60000 [{ topic := "MESSAGES", partitions := none }]]
        result := .ok () }

/-! ## kafkajs consumer run loop (external collaborator)

Modelled from the kafkajs client contract that `startMessageConsumer`
relies on: `consumer.run({ eachMessage })` delivers messages per
partition in offset order; the offset of a delivered message is
committed once its `eachMessage` invocation resolves (a throwing handler
leaves the offset uncommitted, so the same message would be redelivered);
`pause` selections lacking a partition list cover every assigned
partition of the topic; a paused partition is not delivered from until a
matching `resume`.  The store oracle is a list of outcomes, one per
`create` call in order, defaulting to success past its end.  Timers fire
once the clock reaches them; the scheduler fires due timers first, then
delivers from the lowest-numbered deliverable partition, then jumps the
clock to the next timer. -/

/-- Consumer-group run state over the `"MESSAGES"` topic: per-partition
message logs (index = partition), committed cursors, pause/timer state,
a clock, the store oracle, and the accumulated observations. -/
structure ConsumerRunState where
  partitionMessages : List (List (Option String))
  cursors : List Nat
  pausedPartitions : List Nat
  resumeTimers : List (Nat × List TopicPartitionSel)
  now : Nat
  storePlan : List Bool
  storeCalls : Nat
  inserted : List String
  eventLog : List ConsumerEvent
deriving Repr, DecidableEq

/-- State right after `startMessageConsumer` subscribes (`fromBeginning:
true`, so every cursor starts at offset 0) and starts the run loop: not
paused, no timers — the in-memory pause state of a fresh process. -/
def startConsumerState (partitionMessages : List (List (Option String)))
    (storePlan : List Bool) : ConsumerRunState :=
  { partitionMessages := partitionMessages
    cursors := List.replicate partitionMessages.length 0
    pausedPartitions := []
    resumeTimers := []
    now := 0
    storePlan := storePlan
    storeCalls := 0
    inserted := []
    eventLog := [] }

/-- Partitions selected by a kafkajs pause/resume argument, given the
number of assigned partitions: an entry for `"MESSAGES"` without a
partition list selects all of them. -/
def selectedPartitions (numPartitions : Nat) (args : List TopicPartitionSel) : List Nat :=
  args.flatMap fun a =>
    if a.topic = "MESSAGES" then
      match a.partitions with
      | none => List.range numPartitions
      | some ps => ps
    else []

/-- Apply one `eachMessage` event to the run state (`now` is the clock at
delivery time, for timer scheduling). -/
def applyEvent (numPartitions : Nat) (now : Nat) (s : ConsumerRunState)
    (e : ConsumerEvent) : ConsumerRunState :=
  match e with
  | .logged _ => s
  | .dbInsert t => { s with inserted := s.inserted ++ [t] }
  | .pauseIssued args =>
    let fresh := (selectedPartitions numPartitions args).filter
      (fun p => !s.pausedPartitions.contains p)
    { s with pausedPartitions := s.pausedPartitions ++ fresh }
  | .resumeScheduled d args =>
    { s with resumeTimers := s.resumeTimers ++ [(now + d, args)] }

/-- Lowest-numbered partition that is not paused and has an uncommitted
message. -/
def firstDeliverable (s : ConsumerRunState) : Option Nat :=
  (List.range s.partitionMessages.length).find? fun p =>
    !s.pausedPartitions.contains p &&
      s.cursors.getD p 0 < (s.partitionMessages.getD p []).length

/-- Deliver the next message of partition `p` to `eachMessage` and apply
the outcome: events take effect, the store-call count advances for each
attempted create, and — the kafkajs commit rule — the cursor advances
exactly when the callback resolved. -/
def deliverTo (p : Nat) (s : ConsumerRunState) : ConsumerRunState :=
  let msg := (s.partitionMessages.getD p []).getD (s.cursors.getD p 0) none
  let storeOk := s.storePlan.getD s.storeCalls true
  let o := eachMessage storeOk msg
  let s1 := o.events.foldl (applyEvent s.partitionMessages.length s.now) s
  { s1 with
    eventLog := s1.eventLog ++ o.events
    storeCalls := s1.storeCalls + (if msg.isSome then 1 else 0)
    cursors :=
      match o.result with
      | .ok _ => s1.cursors.set p (s1.cursors.getD p 0 + 1)
      | .error _ => s1.cursors
    now := s1.now + 1 }

/-- One scheduler step: fire the first due resume timer, else deliver
from the lowest-numbered deliverable partition, else jump the clock to
the next timer; `none` when nothing remains to do. -/
def consumerStep (s : ConsumerRunState) : Option ConsumerRunState :=
  match s.resumeTimers.find? (fun tm => tm.1 ≤ s.now) with
  | some tm =>
    some { s with
      resumeTimers := s.resumeTimers.erase tm
      pausedPartitions := s.pausedPartitions.filter
        (fun p => !(selectedPartitions s.partitionMessages.length tm.2).contains p) }
  | none =>
    match firstDeliverable s with
    | some p => some (deliverTo p s)
    | none =>
      match s.resumeTimers with
      | [] => none
      | tm :: rest => some { s with now := rest.foldl (fun a b => Nat.min a b.1) tm.1 }

/-- Run the consumer loop for at most `fuel` scheduler steps. -/
def consumerRun : Nat → ConsumerRunState → ConsumerRunState
  | 0, s => s
  | fuel + 1, s =>
    match consumerStep s with
    | none => s
    | some s2 => consumerRun fuel s2

/-! ## Lemmas: the serialize/parse round trip at the Redis boundary -/

theorem hexDigitVal_hexDigitChar (x : Nat) (h : x < 16) :
    hexDigitVal (hexDigitChar x) = some x := by
  interval_cases x <;> rfl

theorem char_ofNat_toNat (c : Char) : Char.ofNat c.toNat = c := by
  apply Char.eq_of_val_eq
  unfold Char.ofNat
  rw [dif_pos (show c.toNat.isValidChar from c.valid)]
  rfl

set_option maxHeartbeats 1000000 in
theorem parseEscape_quote (t : List Char) : parseEscape ('"' :: t) = some ('"', t) := by
  simp only [parseEscape]

theorem parseEscape_backslash (t : List Char) : parseEscape ('\\' :: t) = some ('\\', t) := by
  simp only [parseEscape]

theorem parseEscape_b (t : List Char) : parseEscape ('b' :: t) = some ('\x08', t) := by
  simp only [parseEscape]

theorem parseEscape_f (t : List Char) : parseEscape ('f' :: t) = some ('\x0c', t) := by
  simp only [parseEscape]

theorem parseEscape_n (t : List Char) : parseEscape ('n' :: t) = some ('\n', t) := by
  simp only [parseEscape]

theorem parseEscape_r (t : List Char) : parseEscape ('r' :: t) = some ('\r', t) := by
  simp only [parseEscape]

theorem parseEscape_t (t : List Char) : parseEscape ('t' :: t) = some ('\t', t) := by
  simp only [parseEscape]

set_option maxHeartbeats 1000000 in
theorem parseEscape_u00 (v : Nat) (hv : v < 32) (tail : List Char) :
    parseEscape ('u' :: '0' :: '0' :: hexDigitChar (v / 16) :: hexDigitChar (v % 16) :: tail)
      = some (Char.ofNat v, tail) := by
  have h0 : hexDigitVal '0' = some 0 := rfl
  have h1 : hexDigitVal (hexDigitChar (v / 16)) = some (v / 16) :=
    hexDigitVal_hexDigitChar _ (by omega)
  have h2 : hexDigitVal (hexDigitChar (v % 16)) = some (v % 16) :=
    hexDigitVal_hexDigitChar _ (by omega)
  simp only [parseEscape, uEscapeVal, h0, h1, h2]
  rw [show (4096 * 0 + 256 * 0 + 16 * (v / 16) + v % 16) = v from by omega]
  rw [if_neg (by omega), if_neg (by omega)]

set_option maxHeartbeats 1000000 in
theorem psb_close (fuel : Nat) (rest : List Char) :
    parseStringBody (fuel + 1) ('"' :: rest) = some ([], rest) := by
  simp only [parseStringBody]

theorem psb_escape (fuel : Nat) (rest rest2 : List Char) (c : Char)
    (h : parseEscape rest = some (c, rest2)) :
    parseStringBody (fuel + 1) ('\\' :: rest) =
      (parseStringBody fuel rest2).map (fun q => (c :: q.1, q.2)) := by
  simp only [parseStringBody, h]

theorem psb_plain (fuel : Nat) (c : Char) (rest : List Char)
    (h1 : ¬c = '"') (h2 : ¬c = '\\') (h3 : ¬c.toNat < 32) :
    parseStringBody (fuel + 1) (c :: rest) =
      (parseStringBody fuel rest).map (fun q => (c :: q.1, q.2)) := by
  simp only [parseStringBody]
  rw [if_neg h3]

theorem length_le_escapeList (l : List Char) : l.length ≤ (escapeList l).length := by
  induction l with
  | nil => simp [escapeList]
  | cons c cs ih =>
    have h : 1 ≤ (escapeChar c).length := by
      unfold escapeChar
      split_ifs <;> simp
    simp only [escapeList, List.length_append, List.length_cons]
    omega

theorem parseStringBody_escapeList (l : List Char) : ∀ (fuel : Nat), l.length < fuel →
    ∀ (rest : List Char),
    parseStringBody fuel (escapeList l ++ '"' :: rest) = some (l, rest) := by
  induction l with
  | nil =>
    intro fuel hf rest
    obtain ⟨f, rfl⟩ : ∃ f, fuel = f + 1 := ⟨fuel - 1, by omega⟩
    exact psb_close f rest
  | cons c cs ih =>
    intro fuel hf rest
    obtain ⟨f, rfl⟩ : ∃ f, fuel = f + 1 := ⟨fuel - 1, by omega⟩
    have hcs : cs.length < f := by
      simp only [List.length_cons] at hf; omega
    have ihx := ih f hcs rest
    show parseStringBody (f + 1) ((escapeChar c ++ escapeList cs) ++ '"' :: rest) = _
    rw [List.append_assoc]
    by_cases h1 : c = '"'
    · subst h1
      rw [show escapeChar '"' = ['\\', '"'] from rfl, List.cons_append, List.cons_append,
        List.nil_append, psb_escape f _ _ _ (parseEscape_quote _), ihx]
      rfl
    by_cases h2 : c = '\\'
    · subst h2
      rw [show escapeChar '\\' = ['\\', '\\'] from rfl, List.cons_append, List.cons_append,
        List.nil_append, psb_escape f _ _ _ (parseEscape_backslash _), ihx]
      rfl
    by_cases h3 : c = '\x08'
    · subst h3
      rw [show escapeChar '\x08' = ['\\', 'b'] from rfl, List.cons_append, List.cons_append,
        List.nil_append, psb_escape f _ _ _ (parseEscape_b _), ihx]
      rfl
    by_cases h4 : c = '\x0c'
    · subst h4
      rw [show escapeChar '\x0c' = ['\\', 'f'] from rfl, List.cons_append, List.cons_append,
        List.nil_append, psb_escape f _ _ _ (parseEscape_f _), ihx]
      rfl
    by_cases h5 : c = '\n'
    · subst h5
      rw [show escapeChar '\n' = ['\\', 'n'] from rfl, List.cons_append, List.cons_append,
        List.nil_append, psb_escape f _ _ _ (parseEscape_n _), ihx]
      rfl
    by_cases h6 : c = '\r'
    · subst h6
      rw [show escapeChar '\r' = ['\\', 'r'] from rfl, List.cons_append, List.cons_append,
        List.nil_append, psb_escape f _ _ _ (parseEscape_r _), ihx]
      rfl
    by_cases h7 : c = '\t'
    · subst h7
      rw [show escapeChar '\t' = ['\\', 't'] from rfl, List.cons_append, List.cons_append,
        List.nil_append, psb_escape f _ _ _ (parseEscape_t _), ihx]
      rfl
    by_cases h8 : c.toNat < 32
    · have hesc : escapeChar c =
          ['\\', 'u', '0', '0', hexDigitChar (c.toNat / 16), hexDigitChar (c.toNat % 16)] := by
        unfold escapeChar
        rw [if_neg h1, if_neg h2, if_neg h3, if_neg h4, if_neg h5, if_neg h6, if_neg h7,
          if_pos h8]
      rw [hesc, List.cons_append, List.cons_append, List.cons_append, List.cons_append,
        List.cons_append, List.cons_append, List.nil_append,
        psb_escape f _ _ _ (parseEscape_u00 c.toNat h8 _), char_ofNat_toNat, ihx]
      rfl
    · have hesc : escapeChar c = [c] := by
        unfold escapeChar
        rw [if_neg h1, if_neg h2, if_neg h3, if_neg h4, if_neg h5, if_neg h6, if_neg h7,
          if_neg h8]
      rw [hesc, List.cons_append, List.nil_append, psb_plain f c _ h1 h2 h8, ihx]
      rfl

theorem pv_strVal (g : Nat) (l tail : List Char) :
    parseValue (g + 1) ('"' :: (escapeList l ++ '"' :: tail)) = some (.str (String.mk l), tail) := by
  have h1 : parseValue (g + 1) ('"' :: (escapeList l ++ '"' :: tail)) =
      (parseStringBody ((escapeList l ++ '"' :: tail).length + 1) (escapeList l ++ '"' :: tail)).map
        (fun p => (.str (String.mk p.1), p.2)) := rfl
  have h2 := parseStringBody_escapeList l ((escapeList l ++ '"' :: tail).length + 1)
      (by have := length_le_escapeList l; simp [List.length_append]; omega) tail
  rw [h1, h2]
  rfl

set_option maxHeartbeats 1000000 in
theorem pv_objStep (f : Nat) (X : List Char) :
    parseValue (f + 3) ('\x7b' :: '"' :: X) =
      (parseMembers (f + 2) ('"' :: X)).map (fun p => (.obj p.1, p.2)) := rfl

set_option maxHeartbeats 1000000 in
theorem pm_message (f : Nat) (l : List Char) :
    parseMembers (f + 2)
      ('"' :: ('m' :: 'e' :: 's' :: 's' :: 'a' :: 'g' :: 'e' :: '"' :: ':' :: '"' :: (escapeList l ++ '"' :: ['\x7d'])))
      = some ([("message", .str (String.mk l))], []) := by
  show parseMembers ((f + 1) + 1) _ = _
  conv_lhs => whnf
  rw [pv_strVal f l ['\x7d']]
  rfl

set_option maxHeartbeats 1000000 in
theorem jsonParse_stringifyMessageObj (t : String) :
    jsonParse (stringifyMessageObj t) = some (.obj [("message", .str t)]) := by
  obtain ⟨l⟩ := t
  have hdata : (stringifyMessageObj (String.mk l)).data
      = '\x7b' :: '"' :: 'm' :: 'e' :: 's' :: 's' :: 'a' :: 'g' :: 'e' :: '"' :: ':' :: '"' ::
          (escapeList l ++ '"' :: ['\x7d']) := by
    show ("\x7b\"message\":".data ++ (('"' :: (escapeList l ++ ['"'])) ++ "\x7d".data)) = _
    simp [List.append_assoc]
  have hlen : ((('\x7b' :: '"' :: 'm' :: 'e' :: 's' :: 's' :: 'a' :: 'g' :: 'e' :: '"' :: ':' :: '"' ::
      (escapeList l ++ '"' :: ['\x7d'])) : List Char)).length + 2 = (escapeList l).length + 16 := by
    simp [List.length_append]
  have h1 := pv_objStep ((escapeList l).length + 13)
    ('m' :: 'e' :: 's' :: 's' :: 'a' :: 'g' :: 'e' :: '"' :: ':' :: '"' :: (escapeList l ++ '"' :: ['\x7d']))
  rw [pm_message ((escapeList l).length + 13) l] at h1
  have hpv : parseValue ((escapeList l).length + 16)
      ('\x7b' :: '"' :: 'm' :: 'e' :: 's' :: 's' :: 'a' :: 'g' :: 'e' :: '"' :: ':' :: '"' ::
        (escapeList l ++ '"' :: ['\x7d']))
      = some (.obj [("message", .str (String.mk l))], []) := h1
  unfold jsonParse
  rw [hdata, hlen, hpv]
  rfl

/-! ## Lemmas: the run loop issues no pause while the store succeeds -/

theorem deliverTo_no_failure (p : Nat) (s : ConsumerRunState)
    (hplan : s.storePlan = []) (hp : s.pausedPartitions = []) (ht : s.resumeTimers = [])
    (hlog : s.eventLog.filter (fun e => e.isPause) = []) :
    (deliverTo p s).storePlan = [] ∧ (deliverTo p s).pausedPartitions = [] ∧
      (deliverTo p s).resumeTimers = [] ∧
      (deliverTo p s).eventLog.filter (fun e => e.isPause) = [] := by
  unfold deliverTo
  rw [hplan]
  cases hmsg : (s.partitionMessages.getD p []).getD (s.cursors.getD p 0) none with
  | none =>
    simp [eachMessage, applyEvent, hplan, hp, ht, hlog, List.filter_append,
      ConsumerEvent.isPause]
    simpa [ConsumerEvent.isPause] using hlog
  | some text =>
    simp [eachMessage, prismaCreateMessage, applyEvent, hplan, hp, ht, hlog,
      List.filter_append, ConsumerEvent.isPause]
    simpa [ConsumerEvent.isPause] using hlog

theorem consumerStep_no_failure (s s2 : ConsumerRunState)
    (hplan : s.storePlan = []) (hp : s.pausedPartitions = []) (ht : s.resumeTimers = [])
    (hlog : s.eventLog.filter (fun e => e.isPause) = [])
    (hstep : consumerStep s = some s2) :
    s2.storePlan = [] ∧ s2.pausedPartitions = [] ∧ s2.resumeTimers = [] ∧
      s2.eventLog.filter (fun e => e.isPause) = [] := by
  unfold consumerStep at hstep
  rw [ht] at hstep
  simp only [List.find?] at hstep
  cases hd : firstDeliverable s with
  | none => rw [hd] at hstep; simp at hstep
  | some p =>
    rw [hd] at hstep
    simp only [Option.some.injEq] at hstep
    subst hstep
    exact deliverTo_no_failure p s hplan hp ht hlog

theorem consumerRun_no_failure (fuel : Nat) : ∀ (s : ConsumerRunState),
    s.storePlan = [] → s.pausedPartitions = [] → s.resumeTimers = [] →
    s.eventLog.filter (fun e => e.isPause) = [] →
    (consumerRun fuel s).storePlan = [] ∧ (consumerRun fuel s).pausedPartitions = [] ∧
      (consumerRun fuel s).resumeTimers = [] ∧
      (consumerRun fuel s).eventLog.filter (fun e => e.isPause) = [] := by
  induction fuel with
  | zero => intro s h1 h2 h3 h4; exact ⟨h1, h2, h3, h4⟩
  | succ f ih =>
    intro s h1 h2 h3 h4
    simp only [consumerRun]
    cases hstep : consumerStep s with
    | none => exact ⟨h1, h2, h3, h4⟩
    | some s2 =>
      obtain ⟨a, b, c, d⟩ := consumerStep_no_failure s s2 h1 h2 h3 h4 hstep
      exact ih s2 a b c d

/-! ## The claims -/

/-- C1: for every client message, the `event:message` handler issues
exactly one console log and one Redis publish of the serialized message
to channel `"MESSAGES"`, and no Durable Log append whatsoever — its
effect list contains no Kafka send, because `produceMessage` is never
invoked anywhere in the service.  This refutes the claim (and the
repository README's message-flow step "Produce to Kafka") that both side
effects are attempted. -/
theorem ingress_relay_never_appends_to_durable_log (m : String) :
    eventMessageHandler m =
      [.consoleLog ("New Message Received: " ++ m),
       .redisPublish "MESSAGES" (stringifyMessageObj m)] ∧
    (eventMessageHandler m).filter (fun e => e.isKafkaSend) = [] := ⟨rfl, rfl⟩

/-- C2: one partition holding "x" then "y", store failing on the first
create only.  The pause is issued and elapses, yet only "y" is ever
persisted, the cursor ends past both offsets, and exactly two store
calls happen — "x" gets its single failed attempt and is never
redelivered, because the catch block makes `eachMessage` resolve and
kafkajs then commits the offset.  This refutes the claim that the cursor
does not advance past a failed message and that it is retried after the
pause window. -/
theorem failed_store_write_is_skipped_after_pause :
    (consumerRun 10 (startConsumerState [[some "x", some "y"]] [false])).inserted = ["y"] ∧
    (consumerRun 10 (startConsumerState [[some "x", some "y"]] [false])).cursors = [2] ∧
    (consumerRun 10 (startConsumerState [[some "x", some "y"]] [false])).eventLog.filter
        (fun e => e.isPause) =
      [.pauseIssued [{ topic := "MESSAGES", partitions := none }]] ∧
    (consumerRun 10 (startConsumerState [[some "x", some "y"]] [false])).storeCalls = 2 :=
  ⟨rfl, rfl, rfl, rfl⟩

/-- C3 counterexample: two partitions; the store fails for partition 0's
message.  After that single delivery BOTH partitions are paused, and
until the resume timer fires (the clock jumps to 60000) partition 1's
cursor stays at 0: the pause is not scoped to the failing partition and
the other partition's consumption is stalled. -/
theorem pause_stalls_the_other_partition :
    (consumerRun 1 (startConsumerState [[some "x"], [some "y"]] [false])).pausedPartitions
      = [0, 1] ∧
    (consumerRun 2 (startConsumerState [[some "x"], [some "y"]] [false])).cursors = [1, 0] ∧
    (consumerRun 2 (startConsumerState [[some "x"], [some "y"]] [false])).now = 60000 :=
  ⟨rfl, rfl, rfl⟩

/-- C3 amended: on a store-write failure the handler's pause directive
names the whole topic — `[{ topic: "MESSAGES" }]` with no partition
list — which the kafkajs contract reads as every partition assigned to
this consumer: all partitions are paused, not only the failing one. -/
theorem pause_directive_covers_every_partition (v : String) (n : Nat) :
    (eachMessage false (some v)).events.filter (fun e => e.isPause) =
      [.pauseIssued [{ topic := "MESSAGES", partitions := none }]] ∧
    selectedPartitions n [{ topic := "MESSAGES", partitions := none }] = List.range n := by
  refine ⟨rfl, ?_⟩
  simp [selectedPartitions]

/-- C4 counterexample: the malformed payload "hello" on channel
`"MESSAGES"` makes the subscription callback throw — `JSON.parse` raises
a SyntaxError and nothing catches it — refuting "the callback never
throws out of the subscriber loop". -/
theorem malformed_payload_makes_callback_throw :
    (redisMessageHandler "MESSAGES" "hello").thrown = some "SyntaxError" := rfl

/-- C4 amended: for every malformed payload on `"MESSAGES"` the callback
logs the raw payload, emits nothing to any client (the message is
dropped), but then throws out of the callback: the parse error is not
caught, so the async callback rejects. -/
theorem malformed_payload_logged_dropped_but_throws (payload : String) (clients : List String)
    (h : jsonParse payload = none) :
    (redisMessageHandler "MESSAGES" payload).effects =
      [.consoleLog ("New message from Redis: " ++ payload)] ∧
    deliveries clients (redisMessageHandler "MESSAGES" payload).effects = [] ∧
    (redisMessageHandler "MESSAGES" payload).thrown = some "SyntaxError" := by
  refine ⟨?_, ?_, ?_⟩ <;> simp [redisMessageHandler, h, deliveries]

/-- C4 witness: the amended statement at payload "hello" and one
connected client. -/
theorem malformed_payload_logged_dropped_but_throws_witness :
    jsonParse "hello" = none ∧
    ((redisMessageHandler "MESSAGES" "hello").effects =
      [.consoleLog ("New message from Redis: " ++ "hello")] ∧
    deliveries ["alice"] (redisMessageHandler "MESSAGES" "hello").effects = [] ∧
    (redisMessageHandler "MESSAGES" "hello").thrown = some "SyntaxError") :=
  ⟨rfl, malformed_payload_logged_dropped_but_throws "hello" ["alice"] rfl⟩

/-- C5: every parseable payload received from the bus on `"MESSAGES"` is
re-emitted through one `io.emit`, whose deliveries reach every client
connected to the instance — the handler has no notion of the message's
origin, so the originating instance's clients are included and nothing
is deduplicated — and the ingress handler itself emits nothing, so no
separate local-echo path exists. -/
theorem broadcaster_emits_to_all_clients_no_self_exclusion
    (payload : String) (v : Json) (clients : List String)
    (h : jsonParse payload = some v) :
    (redisMessageHandler "MESSAGES" payload).effects =
      [.consoleLog ("New message from Redis: " ++ payload), .ioEmit "message" v] ∧
    deliveries clients (redisMessageHandler "MESSAGES" payload).effects =
      clients.map (fun c => (c, v)) ∧
    (∀ m : String, (eventMessageHandler m).filter (fun e => e.isIoEmit) = []) := by
  refine ⟨?_, ?_, fun m => rfl⟩ <;> simp [redisMessageHandler, h, deliveries]

/-- C5 witness: the payload `JSON.stringify({message:"hi"})` delivered to
an instance with clients alice and bob (either may be the sender). -/
theorem broadcaster_emits_witness :
    jsonParse "\x7b\"message\":\"hi\"\x7d" = some (.obj [("message", .str "hi")]) ∧
    ((redisMessageHandler "MESSAGES" "\x7b\"message\":\"hi\"\x7d").effects =
      [.consoleLog ("New message from Redis: " ++ "\x7b\"message\":\"hi\"\x7d"),
       .ioEmit "message" (.obj [("message", .str "hi")])] ∧
    deliveries ["alice", "bob"]
        (redisMessageHandler "MESSAGES" "\x7b\"message\":\"hi\"\x7d").effects =
      [("alice", .obj [("message", .str "hi")]), ("bob", .obj [("message", .str "hi")])] ∧
    (∀ m : String, (eventMessageHandler m).filter (fun e => e.isIoEmit) = [])) :=
  ⟨rfl, broadcaster_emits_to_all_clients_no_self_exclusion _ _ ["alice", "bob"] rfl⟩

/-- C6: for every message text `t`, the payload the ingress handler
publishes to channel `"MESSAGES"` is the JSON serialization of the
single-field object `\x7b"message": t\x7d`, and deserializing that
payload succeeds and yields exactly that object, whose `"message"` field
is the submitted text. -/
theorem published_payload_is_json_of_message_object (t : String) :
    eventMessageHandler t =
      [.consoleLog ("New Message Received: " ++ t),
       .redisPublish "MESSAGES" (stringifyMessageObj t)] ∧
    jsonParse (stringifyMessageObj t) = some (.obj [("message", .str t)]) ∧
    jsonField (.obj [("message", .str t)]) "message" = some (.str t) :=
  ⟨rfl, jsonParse_stringifyMessageObj t, rfl⟩

/-- C7: every append performed by `produceMessage` returns `true` and
sends exactly one record, to topic `"MESSAGES"`, keyed
`"message-" + Date.now()` with the serialized message as the value. -/
theorem produceMessage_topic_key_value_result (now : Nat) (message : String)
    (s : KafkaModuleState) :
    (produceMessage now message s).1 = true ∧
    (produceMessage now message s).2.2 =
      [{ topic := "MESSAGES", key := "message-" ++ toString now, value := message }] :=
  ⟨rfl, rfl⟩

/-- C8: on process start the consumer begins Running — the state built by
`startMessageConsumer` pauses nothing and carries no timers, whatever the
partition layout and store oracle, since pause state is in-memory only —
and while the store never fails (all-success oracle) no pause directive
is ever issued over any number of scheduler steps. -/
theorem consumer_starts_running_stays_running_without_failures
    (parts : List (List (Option String))) (plan : List Bool) (fuel : Nat) :
    (startConsumerState parts plan).pausedPartitions = [] ∧
    (startConsumerState parts plan).resumeTimers = [] ∧
    (consumerRun fuel (startConsumerState parts [])).pausedPartitions = [] ∧
    (consumerRun fuel (startConsumerState parts [])).eventLog.filter
        (fun e => e.isPause) = [] := by
  have h := consumerRun_no_failure fuel (startConsumerState parts []) rfl rfl rfl rfl
  exact ⟨rfl, rfl, h.2.1, h.2.2.2⟩

/-- C9: `createProducer` and `createConsumer` are memoizing constructors:
with an empty cache they create, connect and cache a new client; with a
cached client they return it with the module state untouched (so nothing
new is created or connected), and `createConsumer` returns the cached
consumer for any `groupId` argument alike. -/
theorem create_producer_consumer_memoize :
    (∀ s : KafkaModuleState, s.producer = none →
      (createProducer s).2.producer = some (createProducer s).1 ∧
      (createProducer s).2.connectedClients = s.connectedClients ++ [(createProducer s).1]) ∧
    (∀ (s : KafkaModuleState) (p : Nat), s.producer = some p → createProducer s = (p, s)) ∧
    (∀ (s : KafkaModuleState) (g : String), s.consumer = none →
      (createConsumer g s).2.consumer = some (createConsumer g s).1 ∧
      (createConsumer g s).2.connectedClients = s.connectedClients ++ [(createConsumer g s).1] ∧
      (createConsumer g s).2.consumerGroupIds = s.consumerGroupIds ++ [g]) ∧
    (∀ (s : KafkaModuleState) (c : Nat) (g g2 : String), s.consumer = some c →
      createConsumer g s = (c, s) ∧ createConsumer g s = createConsumer g2 s) := by
  refine ⟨fun s h => ?_, fun s p h => ?_, fun s g h => ?_, fun s c g g2 h => ?_⟩ <;>
    simp [createProducer, createConsumer, h]

/-- C9 witness: a second `createProducer` call returns the cached
producer 7 unchanged, and `createConsumer` returns the cached consumer 3
for two different group ids. -/
theorem create_producer_consumer_memoize_witness :
    createProducer ⟨some 7, none, 8, [7], []⟩ = (7, ⟨some 7, none, 8, [7], []⟩) ∧
    createConsumer "group-a" ⟨none, some 3, 4, [3], ["g0"]⟩ =
      createConsumer "group-b" ⟨none, some 3, 4, [3], ["g0"]⟩ :=
  ⟨create_producer_consumer_memoize.2.1 _ 7 rfl,
   (create_producer_consumer_memoize.2.2.2 _ 3 "group-a" "group-b" rfl).2⟩

/-- C10 counterexample: a present-but-empty log value is NOT skipped:
`if (message.value)` tests JS truthiness and a zero-length Buffer is
truthy, so the store write happens, with empty text — refuting "no store
write for a null or empty value". -/
theorem empty_value_is_written_not_skipped :
    (eachMessage true (some "")).events.filter (fun e => e.isDbInsert) = [.dbInsert ""] := rfl

/-- C10 amended: only a null value is silently skipped — no store
attempt, no error, no pause, and the callback resolves so the run loop
advances to the next message (shown on a partition [null, "a"]: one
store call, "a" persisted, cursor past both, nothing paused).  A
present-but-empty value is instead written as empty text. -/
theorem null_value_skipped_empty_value_written (ok : Bool) :
    eachMessage ok none = { events := [.logged "Kafka message received:"], result := .ok () } ∧
    (eachMessage true (some "")).events =
      [.logged "Kafka message received:", .dbInsert "", .logged "Message saved to database:"] ∧
    (consumerRun 3 (startConsumerState [[none, some "a"]] [])).inserted = ["a"] ∧
    (consumerRun 3 (startConsumerState [[none, some "a"]] [])).cursors = [2] ∧
    (consumerRun 3 (startConsumerState [[none, some "a"]] [])).storeCalls = 1 ∧
    (consumerRun 3 (startConsumerState [[none, some "a"]] [])).pausedPartitions = [] :=
  ⟨rfl, rfl, rfl, rfl, rfl, rfl⟩
